import Mathlib

/-!
Shallow embedding of the algorithmic core of the `crypto-analyzer` repository
(`crypto_analyzer/indicators.py`, `crypto_analyzer/volatility_analysis.py`,
`crypto_analyzer/json_summary.py`, `crypto_analyzer/fetchers/binance.py`,
`crypto_analyzer/fetchers/okx.py`), together with theorems settling the
frozen claims about it.

Modelling conventions:
* Python floats are modelled as rationals (`ℚ`); all arithmetic the claims
  depend on is exact in this range.
* Python `round(x, n)` (round-half-to-even on the scaled value) is modelled
  by `py_round`, which implements round-half-to-even exactly on `ℚ`.
* Python dictionaries with optional keys become structures with `Option`
  fields: `none` models an absent key.
* Python `int(x)` truncation toward zero is `py_int`.
* `math.sqrt` (used only for the `volatility_20` field, whose value no claim
  inspects) is abstracted as an explicit function parameter `sqrtf` of
  `calculate_indicators`; every theorem quantifies over it.
* Human-readable `description` / `message` strings attached to signals and
  statuses are presentation-only and are not modelled; a signal is its
  `type` tag and its integer `strength`.
-/

/-- Round-half-to-even of a rational to an integer (the tie rule of Python's
`round`). -/
def round_half_even (y : ℚ) : ℤ :=
  if y - ⌊y⌋ = 1 / 2 then (if ⌊y⌋ % 2 = 0 then ⌊y⌋ else ⌊y⌋ + 1) else round y

/-- Python `round(x, n)`: round to `n` decimal places, ties to even. -/
def py_round (n : ℕ) (x : ℚ) : ℚ :=
  (round_half_even (x * 10 ^ n) : ℚ) / 10 ^ n

/-- Python `int(x)`: truncation toward zero. -/
def py_int (x : ℚ) : ℤ :=
  if 0 ≤ x then ⌊x⌋ else -⌊-x⌋

/-- Python slice `l[-n:]`: the last `n` elements, except that `l[-0:]` is the
whole list. -/
def py_take_last {α : Type} (n : ℕ) (l : List α) : List α :=
  if n = 0 then l else l.drop (l.length - n)

/-- Python slice `l[a:b]` for `0 ≤ a ≤ b` (as used with nonnegative indices in
the source): elements at positions `a, …, b-1`. -/
def py_slice {α : Type} (a b : ℕ) (l : List α) : List α :=
  (l.drop a).take (b - a)

/-- One canonical OHLCV bar, as produced by the kline normalizers
(`fetchers/binance.py`, `fetchers/okx.py`).  The Python field `open` is
spelled `open_` because `open` is a Lean keyword. -/
structure Candle where
  symbol : String
  open_time : ℤ
  open_ : ℚ
  high : ℚ
  low : ℚ
  close : ℚ
  volume : ℚ
  close_time : ℤ
  quote_volume : ℚ
  trades : ℤ
  deriving Repr, DecidableEq

instance : Inhabited Candle :=
  ⟨⟨"", 0, 0, 0, 0, 0, 0, 0, 0, 0⟩⟩

/-- A candle together with the optional derived indicator fields added by
`calculate_indicators`; `none` models a key absent from the Python dict. -/
structure EnrichedCandle where
  base : Candle
  ma20 : Option ℚ
  ma50 : Option ℚ
  rsi14 : Option ℚ
  price_change : Option ℚ
  price_change_pct : Option ℚ
  atr14 : Option ℚ
  atr14_pct : Option ℚ
  volatility_20 : Option ℚ
  volatility_20_pct : Option ℚ
  deriving Repr, DecidableEq

instance : Inhabited EnrichedCandle :=
  ⟨⟨default, none, none, none, none, none, none, none, none, none⟩⟩

/-- Gains list of `indicators.py` lines 26–35: for each consecutive delta of
the RSI window, the positive change or `0`. -/
def rsi_gains (period_closes : List ℚ) : List ℚ :=
  (period_closes.zip period_closes.tail).map
    (fun ab => if ab.2 - ab.1 > 0 then ab.2 - ab.1 else 0)

/-- Losses list of `indicators.py` lines 26–35: for each consecutive delta of
the RSI window, the magnitude of the non-positive change or `0`. -/
def rsi_losses (period_closes : List ℚ) : List ℚ :=
  (period_closes.zip period_closes.tail).map
    (fun ab => if ab.2 - ab.1 > 0 then 0 else |ab.2 - ab.1|)

/-- The `rsi14` value of `indicators.py` lines 24–42 for a 15-close window:
`100.0` when the average loss is zero, else `round(100 - 100/(1+rs), 2)`. -/
def rsi14_of_window (period_closes : List ℚ) : ℚ :=
  let avg_gain := (rsi_gains period_closes).sum / 14
  let avg_loss := (rsi_losses period_closes).sum / 14
  if avg_loss = 0 then 100
  else py_round 2 (100 - 100 / (1 + avg_gain / avg_loss))

/-- True range of candle `j` (`indicators.py` lines 55–67): with a predecessor
at `j-1` it is `max(high-low, |high-prev_close|, |low-prev_close|)`, and for
the very first candle it degrades to `high-low`. -/
def true_range (records : List Candle) (j : ℕ) : ℚ :=
  let high := (records.getD j default).high
  let low := (records.getD j default).low
  if j > 0 then
    let prev_close := (records.getD (j - 1) default).close
    max (high - low) (max |high - prev_close| |low - prev_close|)
  else high - low

/-- The enriched candle built for list position `i` in the loop body of
`calculate_indicators` (`indicators.py` lines 16–84).  `sqrtf` abstracts
`math.sqrt`, see the module comment. -/
def enrich_at (sqrtf : ℚ → ℚ) (records : List Candle) (closes : List ℚ)
    (i : ℕ) : EnrichedCandle :=
  let record := records.getD i default
  let ma20 := if i ≥ 19 then some (py_round 8 ((py_slice (i - 19) (i + 1) closes).sum / 20))
    else none
  let ma50 := if i ≥ 49 then some (py_round 8 ((py_slice (i - 49) (i + 1) closes).sum / 50))
    else none
  let rsi14 := if i ≥ 14 then some (rsi14_of_window (py_slice (i - 14) (i + 1) closes))
    else none
  let price_change := if i > 0 then
      some (py_round 8 (record.close - (records.getD (i - 1) default).close))
    else none
  let price_change_pct := if i > 0 then
      let prev_close := (records.getD (i - 1) default).close
      some (py_round 4 ((record.close - prev_close) / prev_close * 100))
    else none
  let atr14 := if i ≥ 14 then
      let true_ranges := ((List.range' (max 1 (i - 13)) (i + 1 - max 1 (i - 13))).map
        (true_range records))
      some (py_round 8 (true_ranges.sum / (true_ranges.length : ℚ)))
    else none
  let atr14_pct := if i ≥ 14 ∧ record.close > 0 then
      some (py_round 4 (atr14.getD 0 / record.close * 100))
    else none
  let volatility_20 := if i ≥ 19 then
      let period_closes := py_slice (i - 19) (i + 1) closes
      let mean := period_closes.sum / (period_closes.length : ℚ)
      let variance :=
        (period_closes.map (fun x => (x - mean) ^ 2)).sum / (period_closes.length : ℚ)
      some (py_round 8 (sqrtf variance))
    else none
  let volatility_20_pct := if i ≥ 19 then
      let period_closes := py_slice (i - 19) (i + 1) closes
      let mean := period_closes.sum / (period_closes.length : ℚ)
      let variance :=
        (period_closes.map (fun x => (x - mean) ^ 2)).sum / (period_closes.length : ℚ)
      if mean > 0 then some (py_round 4 (sqrtf variance / mean * 100)) else none
    else none
  ⟨record, ma20, ma50, rsi14, price_change, price_change_pct, atr14, atr14_pct,
    volatility_20, volatility_20_pct⟩

/-- `calculate_indicators` of `indicators.py`: enrich every candle with the
indicator fields computed from the list as stored (windows are taken over
list positions).  `sqrtf` abstracts `math.sqrt`. -/
def calculate_indicators (sqrtf : ℚ → ℚ) (records : List Candle) : List EnrichedCandle :=
  let closes := records.map (·.close)
  (List.range records.length).map (enrich_at sqrtf records closes)

example :
    calculate_indicators (fun _ => 0)
      [⟨"S", 10, 1, 2, 1, 2, 3, 11, 4, 5⟩] =
      [⟨⟨"S", 10, 1, 2, 1, 2, 3, 11, 4, 5⟩,
        none, none, none, none, none, none, none, none, none⟩] := by
  decide

/-- Result of `calculate_volatility_regime` (`volatility_analysis.py` lines
10–87).  The three variants are the three `status` values the function can
return; the `ok` payload carries the rounded numeric fields plus the regime,
trend and proxy-key strings (the human-readable `message` of the failure
variants is not modelled). -/
inductive VolRegime where
  | insufficient_data : VolRegime
  | no_volatility_data : VolRegime
  | ok (current_volatility average_volatility max_volatility min_volatility
      volatility_percentile : ℚ)
      (regime volatility_trend volatility_key : String) : VolRegime
  deriving Repr, DecidableEq

/-- The `status` string of a `VolRegime` dictionary. -/
def VolRegime.status : VolRegime → String
  | .insufficient_data => "insufficient_data"
  | .no_volatility_data => "no_volatility_data"
  | .ok _ _ _ _ _ _ _ _ => "ok"

/-- `k.get(volatility_key)` for the two possible proxy keys. -/
def proxy_value (volatility_key : String) (k : EnrichedCandle) : Option ℚ :=
  if volatility_key = "atr14_pct" then k.atr14_pct else k.volatility_20_pct

/-- `calculate_volatility_regime` of `volatility_analysis.py`: classify the
current volatility level against the trailing `lookback` window. -/
def calculate_volatility_regime (klines : List EnrichedCandle) (lookback : ℕ) : VolRegime :=
  if klines.length = 0 ∨ klines.length < lookback then .insufficient_data
  else
    match klines.getLast? with
    | none => .insufficient_data
    | some latest =>
      let recent := py_take_last lookback klines
      let volatility_key := if latest.atr14_pct.isSome then "atr14_pct" else "volatility_20_pct"
      if (proxy_value volatility_key latest).isSome = false then .no_volatility_data
      else
        let historical_vol := recent.filterMap (proxy_value volatility_key)
        if historical_vol = [] then .no_volatility_data
        else
          let current_vol := (proxy_value volatility_key latest).getD 0
          let avg_vol := historical_vol.sum / (historical_vol.length : ℚ)
          let max_vol := (historical_vol.max?).getD 0
          let min_vol := (historical_vol.min?).getD 0
          let sorted_vol := historical_vol.insertionSort (· ≤ ·)
          let percentile :=
            ((sorted_vol.countP (fun v => v ≤ current_vol) : ℚ) / (sorted_vol.length : ℚ)) * 100
          let regime :=
            if current_vol < avg_vol * (7 / 10) then "low_volatility"
            else if current_vol > avg_vol * (13 / 10) then "high_volatility"
            else "normal_volatility"
          let short_term_vol := (py_take_last 5 klines).filterMap (proxy_value volatility_key)
          let vol_trend :=
            if short_term_vol.length ≥ 2 ∧
                (short_term_vol.getLast?).getD 0 > (short_term_vol.head?).getD 0 then
              "increasing"
            else "decreasing"
          .ok (py_round 4 current_vol) (py_round 4 avg_vol) (py_round 4 max_vol)
            (py_round 4 min_vol) (py_round 2 percentile) regime vol_trend volatility_key

/-- One detected signal: its `type` tag and integer `strength` weight (the
human-readable `description` is not modelled). -/
structure Signal where
  type : String
  strength : ℕ
  deriving Repr, DecidableEq

/-- The 24h ticker snapshot (only the keys the analysed code reads; `Option`
models dict-key absence). -/
structure Ticker24h where
  symbol : Option String
  priceChangePercent : Option ℚ
  highPrice : Option ℚ
  lowPrice : Option ℚ
  volume : Option ℚ
  quoteVolume : Option ℚ
  deriving Repr, DecidableEq

/-- The funding-rate snapshot (keys the analysed code reads). -/
structure FundingRate where
  lastFundingRate : Option ℚ
  fundingRate : Option ℚ
  nextFundingTime : Option ℤ
  deriving Repr, DecidableEq

/-- The open-interest snapshot (keys the analysed code reads). -/
structure OpenInterestSnap where
  openInterest : Option ℚ
  deriving Repr, DecidableEq

/-- An order-book snapshot: bid/ask levels as `(price, quantity)` pairs. -/
structure OrderBook where
  bids : List (ℚ × ℚ)
  asks : List (ℚ × ℚ)
  deriving Repr, DecidableEq

/-- The current-price snapshot (keys the analysed code reads). -/
structure CurrentPrice where
  symbol : Option String
  price : Option ℚ
  deriving Repr, DecidableEq

/-- Python `a or b` on two optional numbers: `a` when present and non-zero
(truthy), otherwise `b`. -/
def py_or_q (a b : Option ℚ) : Option ℚ :=
  match a with
  | some x => if x = 0 then b else some x
  | none => b

/-- Result dict of `detect_volatility_expansion_signals`; `none` in
`volatility_analysis` / `conclusion` models the keys being absent from the
early-return dictionaries. -/
structure SignalReport where
  status : String
  volatility_analysis : Option VolRegime
  signals : List Signal
  signal_strength : ℕ
  conclusion : Option String
  deriving Repr, DecidableEq

/-- Signal 1 (`volatility_analysis.py` lines 134–141): low-volatility regime
whose volatility trend is increasing. -/
def signal_trend_reversal (regime vol_trend : String) : List Signal :=
  if regime = "low_volatility" ∧ vol_trend = "increasing" then
    [⟨"volatility_trend_reversal", 2⟩]
  else []

/-- Signal 2 (lines 143–158): volatility percentile below 30 and the latest
absolute price change exceeding 1.5× the previous one. -/
def signal_compression_breakout (vol_percentile : ℚ)
    (klines : List EnrichedCandle) : List Signal :=
  if vol_percentile < 30 then
    match klines.getLast?, klines.dropLast.getLast? with
    | some latest, some prev =>
      let current_change := |(latest.price_change_pct).getD 0|
      let prev_change := |(prev.price_change_pct).getD 0|
      if current_change > prev_change * (3 / 2) then [⟨"volatility_compression_breakout", 3⟩]
      else []
    | _, _ => []
  else []

/-- Signal 3 (lines 160–172): latest volume above 1.5× the mean of the last
five volumes. -/
def signal_volume_expansion (klines : List EnrichedCandle) : List Signal :=
  if klines.length ≥ 2 then
    let recent_volumes := (py_take_last 5 klines).map (fun k => k.base.volume)
    let avg_volume := recent_volumes.sum / (recent_volumes.length : ℚ)
    let latest_volume := ((klines.getLast?).map (fun k => k.base.volume)).getD 0
    if latest_volume > avg_volume * (3 / 2) then [⟨"volume_expansion", 2⟩] else []
  else []

/-- Signal 4 (lines 174–191): RSI of the latest candle below 30 (oversold) or
above 70 (overbought). -/
def signal_rsi (klines : List EnrichedCandle) : List Signal :=
  match klines.getLast? with
  | none => []
  | some latest =>
    match latest.rsi14 with
    | none => []
    | some rsi =>
      if rsi < 30 then [⟨"rsi_oversold", 1⟩]
      else if rsi > 70 then [⟨"rsi_overbought", 1⟩]
      else []

/-- Signal 5 (lines 193–217): latest close crossing the latest `ma20` versus
the previous close (the unused `ma50` read of the source is omitted). -/
def signal_ma20_cross (klines : List EnrichedCandle) : List Signal :=
  if klines.length ≥ 20 then
    match klines.getLast?, klines.dropLast.getLast? with
    | some latest, some prev =>
      match latest.ma20 with
      | some ma20 =>
        if ma20 ≠ 0 ∧ latest.base.close ≠ 0 then
          if prev.base.close < ma20 ∧ latest.base.close > ma20 then
            [⟨"price_breakout_ma20", 2⟩]
          else if prev.base.close > ma20 ∧ latest.base.close < ma20 then
            [⟨"price_breakdown_ma20", 2⟩]
          else []
        else []
      | none => []
    | _, _ => []
  else []

/-- Signal 6 (lines 219–230): absolute funding rate above `0.05`. -/
def signal_funding (funding_rate : Option FundingRate) : List Signal :=
  match funding_rate with
  | none => []
  | some fr =>
    match py_or_q fr.lastFundingRate fr.fundingRate with
    | none => []
    | some funding =>
      if |funding| > 5 / 100 then [⟨"extreme_funding_rate", 2⟩] else []

/-- Signal 7 (lines 232–243): a truthy open-interest value with at least two
candles. -/
def signal_open_interest (open_interest : Option OpenInterestSnap)
    (klines_length : ℕ) : List Signal :=
  match open_interest with
  | none => []
  | some oi_snap =>
    match oi_snap.openInterest with
    | none => []
    | some oi =>
      if oi ≠ 0 ∧ klines_length ≥ 2 then [⟨"open_interest_present", 1⟩] else []

/-- Signal 8 (lines 245–261): top-10-level order-book notional imbalance above
`0.3` in absolute value. -/
def signal_order_book (order_book : Option OrderBook) : List Signal :=
  match order_book with
  | none => []
  | some ob =>
    if ob.bids ≠ [] ∧ ob.asks ≠ [] then
      let bid_value := ((ob.bids.take 10).map (fun pq => pq.1 * pq.2)).sum
      let ask_value := ((ob.asks.take 10).map (fun pq => pq.1 * pq.2)).sum
      let total := bid_value + ask_value
      if total > 0 then
        if |(bid_value - ask_value) / total| > 3 / 10 then [⟨"order_book_imbalance", 2⟩]
        else []
      else []
    else []

/-- Signal 9 (lines 263–272): absolute 24h percent change above 5. -/
def signal_ticker (ticker_24hr : Option Ticker24h) : List Signal :=
  match ticker_24hr with
  | none => []
  | some t =>
    if |(t.priceChangePercent).getD 0| > 5 then [⟨"high_24h_volatility", 1⟩] else []

/-- Conclusion buckets (lines 274–286), evaluated in descending order. -/
def conclusion_of (signal_strength : ℕ) : String :=
  if signal_strength ≥ 6 then "high_probability"
  else if signal_strength ≥ 4 then "medium_probability"
  else if signal_strength ≥ 2 then "low_probability"
  else "no_signal"

/-- `detect_volatility_expansion_signals` of `volatility_analysis.py`: the
nine rules are evaluated in source order and their signals appended; the
source's running `signal_strength` counter always equals the sum of the
strengths of the appended signals, which is how it is expressed here. -/
def detect_volatility_expansion_signals (klines : List EnrichedCandle)
    (ticker_24hr : Option Ticker24h) (funding_rate : Option FundingRate)
    (open_interest : Option OpenInterestSnap) (order_book : Option OrderBook) :
    SignalReport :=
  if klines.length < 20 then ⟨"insufficient_data", none, [], 0, none⟩
  else
    let vol_analysis := calculate_volatility_regime klines 20
    match vol_analysis with
    | .ok cur avg mx mn vol_percentile regime vol_trend key =>
      let signals :=
        signal_trend_reversal regime vol_trend ++
        signal_compression_breakout vol_percentile klines ++
        signal_volume_expansion klines ++
        signal_rsi klines ++
        signal_ma20_cross klines ++
        signal_funding funding_rate ++
        signal_open_interest open_interest klines.length ++
        signal_order_book order_book ++
        signal_ticker ticker_24hr
      let signal_strength := (signals.map (·.strength)).sum
      ⟨"ok", some (.ok cur avg mx mn vol_percentile regime vol_trend key), signals,
        signal_strength, some (conclusion_of signal_strength)⟩
    | v => ⟨v.status, none, [], 0, none⟩

/-- `latest_kline` of `json_summary.py` lines 19–34: pick the candle with the
larger `open_time` of the two ends (auto-detecting the storage order);
`none` models the `ValueError` raised on an empty list. -/
def latest_kline (data : List EnrichedCandle) : Option EnrichedCandle :=
  match data.head?, data.getLast? with
  | some first, some last =>
    if first.base.open_time > last.base.open_time then some first else some last
  | _, _ => none

/-- `order_book_imbalance` of `json_summary.py` lines 37–43 (an absent order
book behaves as the empty dict with empty sides). -/
def order_book_imbalance (order_book : Option OrderBook) (depth : ℕ) : ℚ :=
  let bids := ((order_book.map (·.bids)).getD [])
  let asks := ((order_book.map (·.asks)).getD [])
  let bid_value := ((bids.take depth).map (fun pq => pq.1 * pq.2)).sum
  let ask_value := ((asks.take depth).map (fun pq => pq.1 * pq.2)).sum
  let total := bid_value + ask_value
  if total = 0 then 0 else (bid_value - ask_value) / total

/-- `volume_spike` of `json_summary.py` lines 46–55: latest volume over the
mean of the `lookback` preceding volumes. -/
def volume_spike (data : List EnrichedCandle) (lookback : ℕ) : ℚ :=
  if data.length < lookback + 1 then 0
  else
    let last_vol := ((data.getLast?).map (fun k => k.base.volume)).getD 0
    let prev_vols := ((py_take_last (lookback + 1) data).dropLast).map (fun k => k.base.volume)
    let avg_vol := if prev_vols = [] then 0 else prev_vols.sum / (prev_vols.length : ℚ)
    if avg_vol > 0 then last_vol / avg_vol else 0

/-- The derived `signals` mapping built by `analyze_signals` (`json_summary.py`
lines 58–122); `none` models an absent key.  The Python dict key
`volume_ratio` is spelled `volume_ratio_val` here. -/
structure SignalsMap where
  rsi_status : Option String
  rsi_level : Option String
  price_vs_ma20_pct : Option ℚ
  price_vs_ma50_pct : Option ℚ
  ma20_vs_ma50_pct : Option ℚ
  trend : Option String
  volume_ratio_val : ℚ
  volume_status : String
  deriving Repr, DecidableEq

instance : Inhabited SignalsMap :=
  ⟨⟨none, none, none, none, none, none, 0, ""⟩⟩

/-- The flat summary dict built by `summarize` (`json_summary.py` lines
125–167).  The Python field `open` is spelled `open_` and the dict key
`order_book_imbalance` is spelled `order_book_imbalance_val`. -/
structure Summary where
  symbol : String
  current_price : ℚ
  kline_close : ℚ
  open_ : ℚ
  high : ℚ
  low : ℚ
  ma20 : Option ℚ
  ma50 : Option ℚ
  rsi14 : Option ℚ
  atr14 : Option ℚ
  atr14_pct : Option ℚ
  volatility_20_pct : Option ℚ
  change_24h_pct : Option ℚ
  high_24h : Option ℚ
  low_24h : Option ℚ
  volume_24h : Option ℚ
  quote_volume_24h : Option ℚ
  funding_rate : Option ℚ
  next_funding_time : Option ℤ
  open_interest : Option ℚ
  order_book_imbalance_val : ℚ
  signals : Option SignalsMap
  deriving Repr, DecidableEq

/-- The RSI bucket of `analyze_signals` (`json_summary.py` lines 62–82):
`(rsi_status, rsi_level)`, both absent when no band matches. -/
def rsi_bucket (rsi : Option ℚ) : Option String × Option String :=
  match rsi with
  | none => (none, none)
  | some r =>
    if r < 20 then (some "extreme_oversold", some "<20")
    else if r < 30 then (some "oversold", some "20-30")
    else if r > 80 then (some "extreme_overbought", some ">80")
    else if r > 70 then (some "overbought", some "70-80")
    else if r > 50 then (some "bullish", some "50-70")
    else if r > 30 then (some "bearish", some "30-50")
    else (none, none)

/-- The moving-average part of `analyze_signals` (lines 84–105): the three
distance percentages and the trend label, present only when `ma20`, `ma50`
and the price are all truthy. -/
def ma_signals (price : ℚ) (oma20 oma50 : Option ℚ) :
    Option (ℚ × ℚ × ℚ × String) :=
  match oma20, oma50 with
  | some ma20, some ma50 =>
    if ma20 ≠ 0 ∧ ma50 ≠ 0 ∧ price ≠ 0 then
      let p20 := py_round 2 ((price - ma20) / ma20 * 100)
      let p50 := py_round 2 ((price - ma50) / ma50 * 100)
      let m2050 := py_round 2 ((ma20 - ma50) / ma50 * 100)
      let trend :=
        if price > ma20 ∧ ma20 > ma50 then "uptrend"
        else if price < ma20 ∧ ma20 < ma50 then "downtrend"
        else if ma20 > ma50 ∧ price < ma20 then "uptrend_pullback"
        else if ma20 < ma50 ∧ price > ma20 then "downtrend_rebound"
        else "sideways"
      some (p20, p50, m2050, trend)
    else none
  | _, _ => none

/-- The volume-status label of `analyze_signals` (lines 107–119). -/
def volume_status_of (vs : ℚ) : String :=
  if vs > 3 then "extreme_spike"
  else if vs > 2 then "spike"
  else if vs > 3 / 2 then "elevated"
  else if vs < 1 / 2 then "low"
  else "normal"

/-- `analyze_signals` of `json_summary.py`: attach the derived signal mapping
to the summary. -/
def analyze_signals (summary : Summary) (klines : List EnrichedCandle) : Summary :=
  let rb := rsi_bucket summary.rsi14
  let mp := ma_signals summary.current_price summary.ma20 summary.ma50
  let vs := volume_spike klines 20
  let m : SignalsMap :=
    { rsi_status := rb.1
      rsi_level := rb.2
      price_vs_ma20_pct := mp.map (·.1)
      price_vs_ma50_pct := mp.map (·.2.1)
      ma20_vs_ma50_pct := mp.map (·.2.2.1)
      trend := mp.map (·.2.2.2)
      volume_ratio_val := py_round 2 vs
      volume_status := volume_status_of vs }
  { summary with signals := some m }

/-- The in-memory payload fed to `summarize` (`json_summary.py` line 125 and
§6 of the spec); every auxiliary key is optional. -/
structure Payload where
  klines : List EnrichedCandle
  ticker_24hr : Option Ticker24h
  funding_rate : Option FundingRate
  open_interest : Option OpenInterestSnap
  order_book : Option OrderBook
  current_price : Option CurrentPrice
  exchange : Option String
  deriving Repr, DecidableEq

/-- Python `a or b` where `a` is an optional string (falsy when absent or
empty) and `b` is the fallback value. -/
def py_or_str (a : Option String) (b : String) : String :=
  match a with
  | some s => if s = "" then b else s
  | none => b

/-- `summarize` of `json_summary.py` lines 125–167; `none` models the
`ValueError` of `latest_kline` on an empty kline list. -/
def summarize (payload : Payload) : Option Summary :=
  match latest_kline payload.klines with
  | none => none
  | some last =>
    let ticker := payload.ticker_24hr
    let funding := payload.funding_rate
    let price := (payload.current_price.bind (·.price)).getD last.base.close
    let summary : Summary :=
      { symbol := py_or_str (some last.base.symbol)
          (py_or_str (ticker.bind (·.symbol))
            (py_or_str (payload.current_price.bind (·.symbol))
              (payload.exchange.getD "unknown")))
        current_price := price
        kline_close := last.base.close
        open_ := last.base.open_
        high := last.base.high
        low := last.base.low
        ma20 := last.ma20
        ma50 := last.ma50
        rsi14 := last.rsi14
        atr14 := last.atr14
        atr14_pct := last.atr14_pct
        volatility_20_pct := last.volatility_20_pct
        change_24h_pct := ticker.bind (·.priceChangePercent)
        high_24h := ticker.bind (·.highPrice)
        low_24h := ticker.bind (·.lowPrice)
        volume_24h := ticker.bind (·.volume)
        quote_volume_24h := ticker.bind (·.quoteVolume)
        funding_rate :=
          match funding with
          | none => none
          | some f => py_or_q f.lastFundingRate f.fundingRate
        next_funding_time := funding.bind (·.nextFundingTime)
        open_interest := payload.open_interest.bind (·.openInterest)
        order_book_imbalance_val := order_book_imbalance payload.order_book 10
        signals := none }
    some (analyze_signals summary payload.klines)

/-- Build the normalized candle of one Binance raw kline entry
(`fetchers/binance.py` lines 60–73). -/
def mk_binance_candle (symbol : String) (entry : List ℚ) : Candle :=
  { symbol := symbol.toUpper
    open_time := py_int (entry.getD 0 0)
    open_ := entry.getD 1 0
    high := entry.getD 2 0
    low := entry.getD 3 0
    close := entry.getD 4 0
    volume := entry.getD 5 0
    close_time := py_int (entry.getD 6 0)
    quote_volume := entry.getD 7 0
    trades := py_int (entry.getD 8 0) }

/-- Build the normalized candle of one OKX raw kline entry
(`fetchers/okx.py` lines 80–96): `close_time` is `open_time + 1`. -/
def mk_okx_candle (symbol : String) (entry : List ℚ) : Candle :=
  { symbol := symbol.toUpper
    open_time := py_int (entry.getD 0 0)
    open_ := entry.getD 1 0
    high := entry.getD 2 0
    low := entry.getD 3 0
    close := entry.getD 4 0
    volume := entry.getD 5 0
    close_time := py_int (entry.getD 0 0) + 1
    quote_volume := entry.getD 6 0
    trades := py_int (entry.getD 7 0) }

/-- The normalization loop shared by both kline fetchers: each raw entry must
have at least `min_len` positional fields, else the whole batch fails with a
malformed-data error (`ValueError` in the source). -/
def normalize_entries (min_len : ℕ) (mk : List ℚ → Candle) :
    List (List ℚ) → Except String (List Candle)
  | [] => .ok []
  | entry :: rest =>
    if entry.length < min_len then .error "malformed kline entry"
    else
      match normalize_entries min_len mk rest with
      | .error msg => .error msg
      | .ok tail => .ok (mk entry :: tail)

/-- The pure core of `fetch_binance_klines_async` (`fetchers/binance.py`
lines 55–79) applied to the parsed JSON body: normalize each entry (≥ 9
fields), then reverse, because the feed arrives oldest-first. -/
def fetch_binance_klines_core (symbol : String) (raw_klines : List (List ℚ)) :
    Except String (List Candle) :=
  (normalize_entries 9 (mk_binance_candle symbol) raw_klines).map List.reverse

/-- The pure core of `fetch_okx_klines_async` (`fetchers/okx.py` lines 75–99)
applied to the parsed JSON body: normalize each entry (≥ 8 fields) and keep
the order, because the feed already arrives newest-first. -/
def fetch_okx_klines_core (symbol : String) (raw_klines : List (List ℚ)) :
    Except String (List Candle) :=
  normalize_entries 8 (mk_okx_candle symbol) raw_klines

/-- Helper building a concrete enriched candle (flat OHLC at `close`) for the
demonstration inputs below. -/
def mk_enr (ot : ℤ) (close volume : ℚ) (ma : Option ℚ) (rsi : Option ℚ)
    (pcp : Option ℚ) (apct : Option ℚ) : EnrichedCandle :=
  ⟨⟨"X", ot, close, close, close, close, volume, ot + 1, 0, 0⟩,
    ma, none, rsi, none, pcp, none, apct, none, none⟩

/-- Twenty flat enriched candles in canonical most-recent-first order, all
with volatility proxy `atr14_pct = 1`: the regime is `normal_volatility` and
no detector rule fires on the klines alone. -/
def det_demo : List EnrichedCandle :=
  [mk_enr 2000 10 1 none none none (some 1),
   mk_enr 1900 10 1 none none none (some 1),
   mk_enr 1800 10 1 none none none (some 1),
   mk_enr 1700 10 1 none none none (some 1),
   mk_enr 1600 10 1 none none none (some 1),
   mk_enr 1500 10 1 none none none (some 1),
   mk_enr 1400 10 1 none none none (some 1),
   mk_enr 1300 10 1 none none none (some 1),
   mk_enr 1200 10 1 none none none (some 1),
   mk_enr 1100 10 1 none none none (some 1),
   mk_enr 1000 10 1 none none none (some 1),
   mk_enr 900 10 1 none none none (some 1),
   mk_enr 800 10 1 none none none (some 1),
   mk_enr 700 10 1 none none none (some 1),
   mk_enr 600 10 1 none none none (some 1),
   mk_enr 500 10 1 none none none (some 1),
   mk_enr 400 10 1 none none none (some 1),
   mk_enr 300 10 1 none none none (some 1),
   mk_enr 200 10 1 none none none (some 1),
   mk_enr 100 10 1 none none none (some 1)]

/-- Nineteen flat enriched candles, used as the prefix of the C9 witness. -/
def c9_front : List EnrichedCandle :=
  [mk_enr 2000 10 1 none none none (some 1),
   mk_enr 1900 10 1 none none none (some 1),
   mk_enr 1800 10 1 none none none (some 1),
   mk_enr 1700 10 1 none none none (some 1),
   mk_enr 1600 10 1 none none none (some 1),
   mk_enr 1500 10 1 none none none (some 1),
   mk_enr 1400 10 1 none none none (some 1),
   mk_enr 1300 10 1 none none none (some 1),
   mk_enr 1200 10 1 none none none (some 1),
   mk_enr 1100 10 1 none none none (some 1),
   mk_enr 1000 10 1 none none none (some 1),
   mk_enr 900 10 1 none none none (some 1),
   mk_enr 800 10 1 none none none (some 1),
   mk_enr 700 10 1 none none none (some 1),
   mk_enr 600 10 1 none none none (some 1),
   mk_enr 500 10 1 none none none (some 1),
   mk_enr 400 10 1 none none none (some 1),
   mk_enr 300 10 1 none none none (some 1),
   mk_enr 200 10 1 none none none (some 1)]

/-- The final candle of the C9 witness (its `rsi14` is varied). -/
def c9_last : EnrichedCandle := mk_enr 100 10 1 none none none (some 1)

/-- Twenty flat enriched candles whose last proxy value drops to `1/10`:
the classifier returns an `ok` result with regime `low_volatility`. -/
def vol_demo : List EnrichedCandle :=
  [mk_enr 2000 10 1 none none none (some 1),
   mk_enr 1900 10 1 none none none (some 1),
   mk_enr 1800 10 1 none none none (some 1),
   mk_enr 1700 10 1 none none none (some 1),
   mk_enr 1600 10 1 none none none (some 1),
   mk_enr 1500 10 1 none none none (some 1),
   mk_enr 1400 10 1 none none none (some 1),
   mk_enr 1300 10 1 none none none (some 1),
   mk_enr 1200 10 1 none none none (some 1),
   mk_enr 1100 10 1 none none none (some 1),
   mk_enr 1000 10 1 none none none (some 1),
   mk_enr 900 10 1 none none none (some 1),
   mk_enr 800 10 1 none none none (some 1),
   mk_enr 700 10 1 none none none (some 1),
   mk_enr 600 10 1 none none none (some 1),
   mk_enr 500 10 1 none none none (some 1),
   mk_enr 400 10 1 none none none (some 1),
   mk_enr 300 10 1 none none none (some 1),
   mk_enr 200 10 1 none none none (some 1)]
    ++ [mk_enr 100 10 1 none none none (some (1 / 10))]

/-- A flat plain candle (constant close `10`) at the given open time. -/
def mk_candle (ot : ℤ) : Candle :=
  ⟨"BTCUSDT", ot, 10, 10, 10, 10, 1, ot + 1, 1, 1⟩

/-- Fifty flat candles with strictly decreasing `open_time` (the canonical
most-recent-first order), constant close `10`. -/
def c1_demo : List Candle :=
  [mk_candle 5000,
   mk_candle 4900,
   mk_candle 4800,
   mk_candle 4700,
   mk_candle 4600,
   mk_candle 4500,
   mk_candle 4400,
   mk_candle 4300,
   mk_candle 4200,
   mk_candle 4100,
   mk_candle 4000,
   mk_candle 3900,
   mk_candle 3800,
   mk_candle 3700,
   mk_candle 3600,
   mk_candle 3500,
   mk_candle 3400,
   mk_candle 3300,
   mk_candle 3200,
   mk_candle 3100,
   mk_candle 3000,
   mk_candle 2900,
   mk_candle 2800,
   mk_candle 2700,
   mk_candle 2600,
   mk_candle 2500,
   mk_candle 2400,
   mk_candle 2300,
   mk_candle 2200,
   mk_candle 2100,
   mk_candle 2000,
   mk_candle 1900,
   mk_candle 1800,
   mk_candle 1700,
   mk_candle 1600,
   mk_candle 1500,
   mk_candle 1400,
   mk_candle 1300,
   mk_candle 1200,
   mk_candle 1100,
   mk_candle 1000,
   mk_candle 900,
   mk_candle 800,
   mk_candle 700,
   mk_candle 600,
   mk_candle 500,
   mk_candle 400,
   mk_candle 300,
   mk_candle 200,
   mk_candle 100]

/-- A flat plain candle at the given open time and close. -/
def mk_rsi_candle (ot : ℤ) (c : ℚ) : Candle :=
  ⟨"X", ot, c, c, c, c, 1, ot + 1, 1, 1⟩

/-- Fifteen candles whose closes `1, 2, …, 15` are monotonically
non-decreasing in storage order. -/
def rsi_demo : List Candle :=
  [mk_rsi_candle 1500 1,
   mk_rsi_candle 1400 2,
   mk_rsi_candle 1300 3,
   mk_rsi_candle 1200 4,
   mk_rsi_candle 1100 5,
   mk_rsi_candle 1000 6,
   mk_rsi_candle 900 7,
   mk_rsi_candle 800 8,
   mk_rsi_candle 700 9,
   mk_rsi_candle 600 10,
   mk_rsi_candle 500 11,
   mk_rsi_candle 400 12,
   mk_rsi_candle 300 13,
   mk_rsi_candle 200 14,
   mk_rsi_candle 100 15]

/-- The enriched candle the indicator engine produces at list position 14 of
`rsi_demo`. -/
def rsi_demo_out : EnrichedCandle :=
  ((calculate_indicators (fun _ => 0) rsi_demo).getD 14 default)

/-- Three Binance raw kline entries with ascending timestamps (the native
oldest-first Binance order). -/
def binance_demo : List (List ℚ) :=
  [[1000, 1, 2, 1, 2, 3, 1060, 4, 5],
   [2000, 2, 3, 2, 3, 4, 2060, 5, 6],
   [3000, 3, 4, 3, 4, 5, 3060, 6, 7]]

/-- The normalized output of `fetch_binance_klines_core` on `binance_demo`. -/
def binance_demo_out : List Candle :=
  [mk_binance_candle "btcusdt" [3000, 3, 4, 3, 4, 5, 3060, 6, 7],
   mk_binance_candle "btcusdt" [2000, 2, 3, 2, 3, 4, 2060, 5, 6],
   mk_binance_candle "btcusdt" [1000, 1, 2, 1, 2, 3, 1060, 4, 5]]

/-- Three OKX raw kline entries with descending timestamps (the native
newest-first OKX order). -/
def okx_demo : List (List ℚ) :=
  [[3000, 3, 4, 3, 4, 5, 6, 7],
   [2000, 2, 3, 2, 3, 4, 5, 6],
   [1000, 1, 2, 1, 2, 3, 4, 5]]

/-- The normalized output of `fetch_okx_klines_core` on `okx_demo`. -/
def okx_demo_out : List Candle :=
  [mk_okx_candle "BTC-USDT" [3000, 3, 4, 3, 4, 5, 6, 7],
   mk_okx_candle "BTC-USDT" [2000, 2, 3, 2, 3, 4, 5, 6],
   mk_okx_candle "BTC-USDT" [1000, 1, 2, 1, 2, 3, 4, 5]]

/-- A concrete summary used to exercise `analyze_signals`; `r` is its
`rsi14`. -/
def sum_demo (r : Option ℚ) : Summary :=
  { symbol := "X", current_price := 1, kline_close := 1, open_ := 1, high := 1, low := 1,
    ma20 := none, ma50 := none, rsi14 := r, atr14 := none, atr14_pct := none,
    volatility_20_pct := none, change_24h_pct := none, high_24h := none, low_24h := none,
    volume_24h := none, quote_volume_24h := none, funding_rate := none,
    next_funding_time := none, open_interest := none, order_book_imbalance_val := 0,
    signals := none }

/-- The order book of the C7 scenario: bids `[[100,5],[99,3]]`, asks
`[[101,1]]`. -/
def ob_demo : OrderBook := ⟨[(100, 5), (99, 3)], [(101, 1)]⟩

/-- A one-sided order book: no bids, one ask. -/
def ob_one_sided : OrderBook := ⟨[], [(101, 1)]⟩

/-- Bid notional over the top 10 levels (`volatility_analysis.py` line 250). -/
def bid_notional (ob : OrderBook) : ℚ :=
  ((ob.bids.take 10).map (fun pq => pq.1 * pq.2)).sum

/-- Ask notional over the top 10 levels (`volatility_analysis.py` line 251). -/
def ask_notional (ob : OrderBook) : ℚ :=
  ((ob.asks.take 10).map (fun pq => pq.1 * pq.2)).sum

/-- The proxy key `calculate_volatility_regime` selects for a kline list
(`volatility_analysis.py` line 32). -/
def volatility_key_of (klines : List EnrichedCandle) : String :=
  match klines.getLast? with
  | some latest => if latest.atr14_pct.isSome then "atr14_pct" else "volatility_20_pct"
  | none => "atr14_pct"

/-- The current proxy value of the classifier (`volatility_analysis.py`
line 52): the selected proxy of the candle the code treats as latest. -/
def current_vol_of (klines : List EnrichedCandle) : ℚ :=
  match klines.getLast? with
  | some latest => (proxy_value (volatility_key_of klines) latest).getD 0
  | none => 0

/-- The average proxy value over the trailing lookback window
(`volatility_analysis.py` lines 40–53). -/
def avg_vol_of (klines : List EnrichedCandle) (lookback : ℕ) : ℚ :=
  let historical :=
    (py_take_last lookback klines).filterMap (proxy_value (volatility_key_of klines))
  historical.sum / (historical.length : ℚ)

/-- `get?` view of `calculate_indicators`: position `i` of the output is the
enrichment of position `i` of the input. -/
lemma calculate_indicators_get? (sqrtf : ℚ → ℚ) (records : List Candle) (i : ℕ) :
    (calculate_indicators sqrtf records).get? i =
      if i < records.length then
        some (enrich_at sqrtf records (records.map (·.close)) i)
      else none := by
  unfold calculate_indicators
  by_cases h : i < records.length
  · rw [if_pos h, List.get?_map, List.get?_range h]
    rfl
  · rw [if_neg h, List.get?_map]
    have hn : (List.range records.length).get? i = none := by
      rw [List.get?_eq_none]
      simpa using h
    rw [hn]
    rfl

/-- `normalize_entries` succeeds only with the entrywise image of the raw
list. -/
lemma normalize_entries_ok (n : ℕ) (mk : List ℚ → Candle) :
    ∀ (raw : List (List ℚ)) (l : List Candle),
      normalize_entries n mk raw = .ok l → l = raw.map mk := by
  intro raw
  induction raw with
  | nil =>
    intro l h
    simp only [normalize_entries, Except.ok.injEq] at h
    simp [h.symm]
  | cons e rest ih =>
    intro l h
    unfold normalize_entries at h
    split at h
    · exact absurd h (by simp)
    · split at h
      · exact absurd h (by simp)
      · rename_i tail htail
        simp only [Except.ok.injEq] at h
        subst h
        rw [List.map_cons, ih tail htail]

/-- The regime classifier on the 20-candle base demonstration input. -/
lemma regime_det_demo : calculate_volatility_regime det_demo 20 =
    .ok 1 1 1 1 100 "normal_volatility" "decreasing" "atr14_pct" := by
  norm_num [calculate_volatility_regime, det_demo, mk_enr, py_take_last, proxy_value,
    py_round, round_half_even, round_eq, List.insertionSort, List.orderedInsert,
    List.filterMap_cons, List.getLast?, List.countP, List.countP.go]
  intro h
  simp at h

/-- Rule 1 does not fire on a normal-volatility decreasing-trend regime. -/
lemma str_det_demo : signal_trend_reversal "normal_volatility" "decreasing" = [] := by
  simp [signal_trend_reversal]

/-- Rule 2 does not fire at volatility percentile 100. -/
lemma scb_det_demo : signal_compression_breakout 100 det_demo = [] := by
  norm_num [signal_compression_breakout]

/-- Rule 3 does not fire on the flat-volume base demonstration input. -/
lemma sve_det_demo : signal_volume_expansion det_demo = [] := by
  norm_num [signal_volume_expansion, det_demo, mk_enr, py_take_last, List.getLast?]

/-- Rule 4 does not fire when the latest candle has no RSI. -/
lemma srsi_det_demo : signal_rsi det_demo = [] := by
  simp [signal_rsi, det_demo, mk_enr, List.getLast?]

/-- Rule 5 does not fire when the latest candle has no `ma20`. -/
lemma sma_det_demo : signal_ma20_cross det_demo = [] := by
  simp [signal_ma20_cross, det_demo, mk_enr, List.getLast?]

/-- The detector on the base demonstration input, parametric in the auxiliary
snapshots: only the snapshot-driven rules can contribute. -/
lemma detect_det_demo_eval (t : Option Ticker24h) (f : Option FundingRate)
    (oi : Option OpenInterestSnap) (ob : Option OrderBook) :
    detect_volatility_expansion_signals det_demo t f oi ob =
      ⟨"ok", some (.ok 1 1 1 1 100 "normal_volatility" "decreasing" "atr14_pct"),
        signal_funding f ++ signal_open_interest oi 20 ++
          signal_order_book ob ++ signal_ticker t,
        (((signal_funding f ++ signal_open_interest oi 20 ++
          signal_order_book ob ++ signal_ticker t).map (·.strength)).sum),
        some (conclusion_of (((signal_funding f ++ signal_open_interest oi 20 ++
          signal_order_book ob ++ signal_ticker t).map (·.strength)).sum))⟩ := by
  unfold detect_volatility_expansion_signals
  rw [if_neg (by decide), regime_det_demo]
  have hlen : det_demo.length = 20 := by decide
  simp only [str_det_demo, scb_det_demo, sve_det_demo, srsi_det_demo, sma_det_demo, hlen,
    List.nil_append]

/-- C4: for every kline sequence with fewer than 20 candles (including the
empty one), `detect_volatility_expansion_signals` returns status
`insufficient_data`, an empty signal list and signal strength `0` (and, being
a total function, raises nothing). -/
theorem claim_C4_insufficient_data (klines : List EnrichedCandle)
    (t : Option Ticker24h) (f : Option FundingRate) (oi : Option OpenInterestSnap)
    (ob : Option OrderBook) (h : klines.length < 20) :
    detect_volatility_expansion_signals klines t f oi ob =
      ⟨"insufficient_data", none, [], 0, none⟩ := by
  unfold detect_volatility_expansion_signals
  rw [if_pos h]

/-- Witness for C4 at the empty kline list. -/
theorem claim_C4_insufficient_data_witness :
    ([] : List EnrichedCandle).length < 20 ∧
      detect_volatility_expansion_signals [] none none none none =
        ⟨"insufficient_data", none, [], 0, none⟩ :=
  ⟨by decide, claim_C4_insufficient_data [] none none none none (by decide)⟩

/-- C2 (code bug): the claim says `extreme_funding_rate` fires iff the
absolute funding rate exceeds `0.0005`, in particular at `0.0007`.  The code
compares against `0.05` (its own comment says `0.05%` and its description
string prints `funding*100` as a percentage), so on a 20-candle input whose
detector run reaches the funding rule, a funding rate of `0.0007` produces no
signal at all, while `0.06` does produce the signal. -/
theorem claim_C2_funding_threshold_bug :
    |(7 : ℚ) / 10000| > 5 / 10000 ∧
    (detect_volatility_expansion_signals det_demo none
        (some ⟨some (7 / 10000), none, none⟩) none none).status = "ok" ∧
    (detect_volatility_expansion_signals det_demo none
        (some ⟨some (7 / 10000), none, none⟩) none none).signals = [] ∧
    (detect_volatility_expansion_signals det_demo none
        (some ⟨some (6 / 100), none, none⟩) none none).signals =
      [⟨"extreme_funding_rate", 2⟩] := by
  rw [detect_det_demo_eval, detect_det_demo_eval]
  refine ⟨by rw [abs_of_pos (by norm_num)]; norm_num, rfl, ?_, ?_⟩ <;>
    norm_num [signal_funding, py_or_q, signal_open_interest, signal_order_book, signal_ticker,
      abs_of_nonneg]

/-- C1 (code bug): on a canonical most-recent-first input of length 50
(strictly decreasing `open_time`), the claim puts `ma20`/`ma50` exactly on
chronological indices ≥ 19 / ≥ 49 — in particular on the newest candle,
which is list position 0.  The code windows by storage position instead: the
newest candle gets no `ma20` (or `ma50`) at all, while the chronologically
oldest candle (list position 49, chronological index 0) does get an `ma50`
(here `10`, the mean over the whole, chronologically later, list). -/
theorem claim_C1_ma_window_direction_bug :
    c1_demo.length = 50 ∧
    (c1_demo.map (·.open_time)).Chain' (· > ·) ∧
    ∀ sqrtf : ℚ → ℚ,
      ((calculate_indicators sqrtf c1_demo).get? 0).map (·.ma20) = some none ∧
      ((calculate_indicators sqrtf c1_demo).get? 49).map (·.ma50) = some (some 10) := by
  refine ⟨by decide, by simp [c1_demo, mk_candle, List.chain'_cons], fun sqrtf => ⟨?_, ?_⟩⟩
  · rw [calculate_indicators_get?, if_pos (by decide)]
    simp [enrich_at]
  · rw [calculate_indicators_get?, if_pos (by decide)]
    norm_num [enrich_at, c1_demo, mk_candle, py_slice, py_round, round_half_even, round_eq]

/-- C3: kline normalization establishes the most-recent-first invariant for
both feeds.  For Binance, a successfully normalized batch whose raw
timestamps (field 0 of each entry) are strictly ascending (the native
oldest-first order) comes out with strictly descending `open_time`; for OKX, a
batch with strictly descending raw timestamps (the native newest-first order)
is kept in input order, hence also strictly descending. -/
theorem claim_C3_normalizer_ordering (symbol : String) (raw : List (List ℚ))
    (out : List Candle) :
    (fetch_binance_klines_core symbol raw = .ok out →
      (raw.map (fun e => py_int (e.getD 0 0))).Chain' (· < ·) →
      (out.map (·.open_time)).Chain' (· > ·)) ∧
    (fetch_okx_klines_core symbol raw = .ok out →
      (raw.map (fun e => py_int (e.getD 0 0))).Chain' (· > ·) →
      out = raw.map (mk_okx_candle symbol) ∧
        (out.map (·.open_time)).Chain' (· > ·)) := by
  constructor
  · intro hok hasc
    unfold fetch_binance_klines_core at hok
    cases hn : normalize_entries 9 (mk_binance_candle symbol) raw with
    | error msg => rw [hn] at hok; exact absurd hok (by simp [Except.map])
    | ok l =>
      rw [hn] at hok
      simp only [Except.map, Except.ok.injEq] at hok
      subst hok
      rw [normalize_entries_ok 9 (mk_binance_candle symbol) raw l hn]
      rw [List.map_reverse, List.map_map]
      rw [List.chain'_reverse]
      have : (List.map ((fun c => c.open_time) ∘ mk_binance_candle symbol) raw) =
          raw.map (fun e => py_int (e.getD 0 0)) := by
        simp [Function.comp, mk_binance_candle]
      rw [this]
      exact hasc.imp (fun a b h => h)
  · intro hok hdesc
    unfold fetch_okx_klines_core at hok
    have hmap := normalize_entries_ok 8 (mk_okx_candle symbol) raw out hok
    refine ⟨hmap, ?_⟩
    rw [hmap, List.map_map]
    have : (List.map ((fun c => c.open_time) ∘ mk_okx_candle symbol) raw) =
        raw.map (fun e => py_int (e.getD 0 0)) := by
      simp [Function.comp, mk_okx_candle]
    rw [this]
    exact hdesc

/-- Witness for C3 on concrete three-entry batches from each feed. -/
theorem claim_C3_normalizer_ordering_witness :
    (fetch_binance_klines_core "btcusdt" binance_demo = .ok binance_demo_out ∧
      (binance_demo_out.map (·.open_time)).Chain' (· > ·)) ∧
    (fetch_okx_klines_core "BTC-USDT" okx_demo = .ok okx_demo_out ∧
      okx_demo_out = okx_demo.map (mk_okx_candle "BTC-USDT") ∧
      (okx_demo_out.map (·.open_time)).Chain' (· > ·)) := by
  have hb : fetch_binance_klines_core "btcusdt" binance_demo = .ok binance_demo_out := by
    simp [fetch_binance_klines_core, normalize_entries, binance_demo, binance_demo_out,
      Except.map]
  have ho : fetch_okx_klines_core "BTC-USDT" okx_demo = .ok okx_demo_out := by
    simp [fetch_okx_klines_core, normalize_entries, okx_demo, okx_demo_out]
  refine ⟨⟨hb, ?_⟩, ⟨ho, ?_, ?_⟩⟩
  · exact (claim_C3_normalizer_ordering "btcusdt" binance_demo binance_demo_out).1 hb
      (by simp [binance_demo, py_int, List.chain'_cons])
  · exact ((claim_C3_normalizer_ordering "BTC-USDT" okx_demo okx_demo_out).2 ho
      (by simp [okx_demo, py_int, List.chain'_cons])).1
  · exact ((claim_C3_normalizer_ordering "BTC-USDT" okx_demo okx_demo_out).2 ho
      (by simp [okx_demo, py_int, List.chain'_cons])).2

/-- `round_half_even` never goes below the floor. -/
lemma le_round_half_even (y : ℚ) : ⌊y⌋ ≤ round_half_even y := by
  unfold round_half_even
  split
  · split <;> omega
  · rw [round_eq]
    exact Int.floor_le_floor (by linarith)

/-- `round_half_even` never exceeds the ceiling. -/
lemma round_half_even_le (y : ℚ) : round_half_even y ≤ ⌈y⌉ := by
  unfold round_half_even
  split
  · rename_i h
    have hfl : (⌊y⌋ : ℚ) ≤ y := Int.floor_le y
    have hlt : (⌊y⌋ : ℚ) < y := by linarith
    have hceil : ⌊y⌋ < ⌈y⌉ := Int.lt_ceil.mpr hlt
    split <;> omega
  · rw [round_eq]
    have hc := Int.le_ceil y
    have : ⌊y + 1 / 2⌋ < ⌈y⌉ + 1 := by
      apply Int.floor_lt.mpr
      push_cast
      linarith
    omega

/-- `py_round` of a nonnegative number is nonnegative. -/
lemma py_round_nonneg (n : ℕ) (x : ℚ) (hx : 0 ≤ x) : 0 ≤ py_round n x := by
  unfold py_round
  apply div_nonneg _ (by positivity)
  have h0 : (0 : ℤ) ≤ ⌊x * 10 ^ n⌋ := Int.floor_nonneg.mpr (by positivity)
  exact_mod_cast le_trans h0 (le_round_half_even (x * 10 ^ n))

/-- `py_round` respects an integer upper bound. -/
lemma py_round_le (n : ℕ) (x : ℚ) (B : ℤ) (hx : x ≤ B) : py_round n x ≤ (B : ℚ) := by
  unfold py_round
  rw [div_le_iff (by positivity)]
  have h1 : round_half_even (x * 10 ^ n) ≤ ⌈x * 10 ^ n⌉ := round_half_even_le _
  have h2 : ⌈x * 10 ^ n⌉ ≤ B * 10 ^ n := by
    apply Int.ceil_le.mpr
    push_cast
    exact mul_le_mul_of_nonneg_right hx (by positivity)
  exact_mod_cast le_trans h1 h2

/-- The RSI formula of `indicators.py` lies in `[0, 100]` for every window. -/
lemma rsi14_of_window_bounds (w : List ℚ) :
    0 ≤ rsi14_of_window w ∧ rsi14_of_window w ≤ 100 := by
  simp only [rsi14_of_window]
  split
  · norm_num
  · rename_i hne
    have hg0 : 0 ≤ (rsi_gains w).sum := by
      apply List.sum_nonneg
      intro g hgmem
      simp only [rsi_gains, List.mem_map] at hgmem
      obtain ⟨ab, _, hab⟩ := hgmem
      subst hab
      split <;> simp_all <;> linarith
    have hl0 : 0 ≤ (rsi_losses w).sum := by
      apply List.sum_nonneg
      intro g hgmem
      simp only [rsi_losses, List.mem_map] at hgmem
      obtain ⟨ab, _, hab⟩ := hgmem
      subst hab
      split
      · simp
      · simp [abs_nonneg]
    have hlpos : 0 < (rsi_losses w).sum / 14 :=
      lt_of_le_of_ne (by positivity) (Ne.symm hne)
    have hrs : 0 ≤ (rsi_gains w).sum / 14 / ((rsi_losses w).sum / 14) :=
      div_nonneg (by positivity) hlpos.le
    have hd : (0 : ℚ) < 1 + (rsi_gains w).sum / 14 / ((rsi_losses w).sum / 14) := by
      linarith
    have hdivpos : 0 < 100 / (1 + (rsi_gains w).sum / 14 / ((rsi_losses w).sum / 14)) := by
      positivity
    have hdivle : 100 / (1 + (rsi_gains w).sum / 14 / ((rsi_losses w).sum / 14)) ≤ 100 := by
      rw [div_le_iff hd]
      nlinarith
    constructor
    · exact py_round_nonneg 2 _ (by linarith)
    · exact_mod_cast py_round_le 2 _ 100 (by linarith)

/-- A non-decreasing window contributes only zero losses. -/
lemma rsi_losses_sum_zero : ∀ w : List ℚ, w.Chain' (· ≤ ·) → (rsi_losses w).sum = 0 := by
  intro w
  induction w with
  | nil => intro _; simp [rsi_losses]
  | cons a t ih =>
    cases t with
    | nil => intro _; simp [rsi_losses]
    | cons b r =>
      intro h
      rw [List.chain'_cons] at h
      have hhead : (if b - a > 0 then (0 : ℚ) else |b - a|) = 0 := by
        by_cases hd : b - a > 0
        · simp [hd]
        · have hba : b - a = 0 := le_antisymm (not_lt.mp hd) (by linarith [h.1])
          simp [hd, hba]
      have htail := ih h.2
      simp only [rsi_losses, List.tail_cons, List.zip_cons_cons, List.map_cons,
        List.sum_cons] at htail ⊢
      rw [hhead, htail]
      norm_num

/-- The `rsi14` of the enrichment at position `i`. -/
lemma enrich_at_rsi14 (sqrtf : ℚ → ℚ) (records : List Candle) (closes : List ℚ) (i : ℕ) :
    (enrich_at sqrtf records closes i).rsi14 =
      if i ≥ 14 then some (rsi14_of_window (py_slice (i - 14) (i + 1) closes)) else none := by
  simp [enrich_at]

/-- C5: every `rsi14` the indicator engine produces lies in `[0, 100]`; and
whenever the 15-close window ending at position `i` is monotonically
non-decreasing, the produced `rsi14` is exactly `100`. -/
theorem claim_C5_rsi_range_and_saturation (sqrtf : ℚ → ℚ) (records : List Candle)
    (i : ℕ) (e : EnrichedCandle)
    (h : (calculate_indicators sqrtf records).get? i = some e) :
    (∀ v, e.rsi14 = some v → 0 ≤ v ∧ v ≤ 100) ∧
    (14 ≤ i →
      (py_slice (i - 14) (i + 1) (records.map (·.close))).Chain' (· ≤ ·) →
      e.rsi14 = some 100) := by
  rw [calculate_indicators_get?] at h
  split at h
  · simp only [Option.some.injEq] at h
    subst h
    constructor
    · intro v hv
      rw [enrich_at_rsi14] at hv
      split at hv
      · simp only [Option.some.injEq] at hv
        subst hv
        exact rsi14_of_window_bounds _
      · exact absurd hv (by simp)
    · intro h14 hchain
      rw [enrich_at_rsi14, if_pos h14]
      have hz := rsi_losses_sum_zero _ hchain
      unfold rsi14_of_window
      rw [hz]
      norm_num
  · exact absurd h (by simp)

/-- Witness for C5 at the 15-candle run with closes `1, …, 15`. -/
theorem claim_C5_rsi_range_and_saturation_witness :
    (calculate_indicators (fun _ => 0) rsi_demo).get? 14 = some rsi_demo_out ∧
    rsi_demo_out.rsi14 = some 100 := by
  have h : (calculate_indicators (fun _ => 0) rsi_demo).get? 14 = some rsi_demo_out := by
    rw [calculate_indicators_get?, if_pos (by decide)]
    rfl
  refine ⟨h, (claim_C5_rsi_range_and_saturation _ _ _ _ h).2 (by norm_num) ?_⟩
  simp [rsi_demo, mk_rsi_candle, py_slice, List.chain'_cons]
  norm_num

/-- Inversion for an `ok` regime result: the returned `regime` string is the
threshold if-chain over the current and average proxy values. -/
lemma regime_ok_inversion (klines : List EnrichedCandle) (lookback : ℕ)
    (cur avg mx mn pct : ℚ) (regime trend key : String)
    (h : calculate_volatility_regime klines lookback =
      .ok cur avg mx mn pct regime trend key) :
    regime =
      (if current_vol_of klines < avg_vol_of klines lookback * (7 / 10) then
        "low_volatility"
      else if current_vol_of klines > avg_vol_of klines lookback * (13 / 10) then
        "high_volatility"
      else "normal_volatility") := by
  simp only [calculate_volatility_regime] at h
  split at h
  · exact absurd h (by simp)
  split at h
  · exact absurd h (by simp)
  rename_i latest hlast
  cases hks : latest.atr14_pct.isSome with
  | true =>
    simp only [hks] at h
    simp only [if_true, reduceIte] at h
    split at h
    · exact absurd h (by simp)
    split at h
    · exact absurd h (by simp)
    injection h with h1 h2 h3 h4 h5 h6 h7 h8
    have hcur : current_vol_of klines = (proxy_value "atr14_pct" latest).getD 0 := by
      simp [current_vol_of, volatility_key_of, hlast, hks]
    have havg : avg_vol_of klines lookback =
        ((py_take_last lookback klines).filterMap (proxy_value "atr14_pct")).sum /
        (((py_take_last lookback klines).filterMap (proxy_value "atr14_pct")).length : ℚ) := by
      simp [avg_vol_of, volatility_key_of, hlast, hks]
    rw [hcur, havg]
    exact h6.symm
  | false =>
    simp only [hks] at h
    simp only [Bool.false_eq_true, if_false, reduceIte] at h
    split at h
    · exact absurd h (by simp)
    split at h
    · exact absurd h (by simp)
    injection h with h1 h2 h3 h4 h5 h6 h7 h8
    have hcur : current_vol_of klines = (proxy_value "volatility_20_pct" latest).getD 0 := by
      simp [current_vol_of, volatility_key_of, hlast, hks]
    have havg : avg_vol_of klines lookback =
        ((py_take_last lookback klines).filterMap (proxy_value "volatility_20_pct")).sum /
        (((py_take_last lookback klines).filterMap
          (proxy_value "volatility_20_pct")).length : ℚ) := by
      simp [avg_vol_of, volatility_key_of, hlast, hks]
    rw [hcur, havg]
    exact h6.symm

/-- Proxy values of spec-conformant enriched candles are nonnegative; under
that domain assumption the trailing-window average proxy is nonnegative. -/
lemma avg_vol_of_nonneg (klines : List EnrichedCandle) (lookback : ℕ)
    (hprox : ∀ c ∈ klines,
      (∀ v, c.atr14_pct = some v → 0 ≤ v) ∧
      (∀ v, c.volatility_20_pct = some v → 0 ≤ v)) :
    0 ≤ avg_vol_of klines lookback := by
  unfold avg_vol_of
  apply div_nonneg _ (by positivity)
  apply List.sum_nonneg
  intro x hx
  rw [List.mem_filterMap] at hx
  obtain ⟨c, hc, hcx⟩ := hx
  have hcin : c ∈ klines := by
    unfold py_take_last at hc
    split at hc
    · exact hc
    · exact List.mem_of_mem_drop hc
  unfold proxy_value at hcx
  split at hcx
  · exact (hprox c hcin).1 x hcx
  · exact (hprox c hcin).2 x hcx

/-- C6: for spec-conformant enriched candles (nonnegative volatility
proxies), whenever the regime classifier returns `ok`, its `regime` field is
`low_volatility` exactly when the current proxy value is strictly below
`0.7×` the average over the trailing lookback window, `high_volatility`
exactly when it is strictly above `1.3×` that average, and
`normal_volatility` otherwise. -/
theorem claim_C6_regime_thresholds (klines : List EnrichedCandle) (lookback : ℕ)
    (cur avg mx mn pct : ℚ) (regime trend key : String)
    (hprox : ∀ c ∈ klines,
      (∀ v, c.atr14_pct = some v → 0 ≤ v) ∧
      (∀ v, c.volatility_20_pct = some v → 0 ≤ v))
    (h : calculate_volatility_regime klines lookback =
      .ok cur avg mx mn pct regime trend key) :
    (regime = "low_volatility" ↔
      current_vol_of klines < avg_vol_of klines lookback * (7 / 10)) ∧
    (regime = "high_volatility" ↔
      current_vol_of klines > avg_vol_of klines lookback * (13 / 10)) ∧
    (regime = "normal_volatility" ↔
      (¬ current_vol_of klines < avg_vol_of klines lookback * (7 / 10) ∧
       ¬ current_vol_of klines > avg_vol_of klines lookback * (13 / 10))) := by
  have havg := avg_vol_of_nonneg klines lookback hprox
  rw [regime_ok_inversion klines lookback cur avg mx mn pct regime trend key h]
  by_cases hc1 : current_vol_of klines < avg_vol_of klines lookback * (7 / 10)
  · simp [hc1]
    linarith
  · by_cases hc2 : current_vol_of klines > avg_vol_of klines lookback * (13 / 10)
    · simp [hc1, hc2]
    · simp [hc1, hc2]

/-- Witness for C6 on a 20-candle input classified as `low_volatility`. -/
theorem claim_C6_regime_thresholds_witness :
    calculate_volatility_regime vol_demo 20 =
      .ok (1 / 10) (191 / 200) 1 (1 / 10) 5 "low_volatility" "decreasing" "atr14_pct" ∧
    current_vol_of vol_demo < avg_vol_of vol_demo 20 * (7 / 10) := by
  have h : calculate_volatility_regime vol_demo 20 =
      .ok (1 / 10) (191 / 200) 1 (1 / 10) 5 "low_volatility" "decreasing" "atr14_pct" := by
    norm_num [calculate_volatility_regime, vol_demo, mk_enr, py_take_last, proxy_value,
      py_round, round_half_even, round_eq, List.insertionSort, List.orderedInsert,
      List.filterMap_cons, List.getLast?, List.countP, List.countP.go]
    intro hfalse
    simp at hfalse
  refine ⟨h, (claim_C6_regime_thresholds vol_demo 20 _ _ _ _ _ _ _ _ ?_ h).1.mp rfl⟩
  have base : ∀ (ot : ℤ) (a : ℚ), 0 ≤ a →
      (∀ v, (mk_enr ot 10 1 none none none (some a)).atr14_pct = some v → 0 ≤ v) ∧
      (∀ v, (mk_enr ot 10 1 none none none (some a)).volatility_20_pct = some v → 0 ≤ v) := by
    intro ot a ha
    constructor <;> intro v hv <;> simp [mk_enr] at hv
    exact hv ▸ ha
  intro c hc
  fin_cases hc <;>
    first
    | exact base _ 1 (by norm_num)
    | exact base _ (1 / 10) (by norm_num)

/-- Rule 1 never emits the order-book signal. -/
lemma ob_notin_signal_trend_reversal (r t : String) :
    Signal.mk "order_book_imbalance" 2 ∉ signal_trend_reversal r t := by
  unfold signal_trend_reversal
  repeat' first | split | dsimp only
  all_goals simp

/-- Rule 2 never emits the order-book signal. -/
lemma ob_notin_signal_compression_breakout (pct : ℚ) (klines : List EnrichedCandle) :
    Signal.mk "order_book_imbalance" 2 ∉ signal_compression_breakout pct klines := by
  unfold signal_compression_breakout
  repeat' first | split | dsimp only
  all_goals simp

/-- Rule 3 never emits the order-book signal. -/
lemma ob_notin_signal_volume_expansion (klines : List EnrichedCandle) :
    Signal.mk "order_book_imbalance" 2 ∉ signal_volume_expansion klines := by
  unfold signal_volume_expansion
  repeat' first | split | dsimp only
  all_goals simp

/-- Rule 4 never emits the order-book signal. -/
lemma ob_notin_signal_rsi (klines : List EnrichedCandle) :
    Signal.mk "order_book_imbalance" 2 ∉ signal_rsi klines := by
  unfold signal_rsi
  repeat' first | split | dsimp only
  all_goals simp

/-- Rule 5 never emits the order-book signal. -/
lemma ob_notin_signal_ma20_cross (klines : List EnrichedCandle) :
    Signal.mk "order_book_imbalance" 2 ∉ signal_ma20_cross klines := by
  unfold signal_ma20_cross
  repeat' first | split | dsimp only
  all_goals simp

/-- Rule 6 never emits the order-book signal. -/
lemma ob_notin_signal_funding (f : Option FundingRate) :
    Signal.mk "order_book_imbalance" 2 ∉ signal_funding f := by
  unfold signal_funding
  repeat' first | split | dsimp only
  all_goals simp

/-- Rule 7 never emits the order-book signal. -/
lemma ob_notin_signal_open_interest (oi : Option OpenInterestSnap) (n : ℕ) :
    Signal.mk "order_book_imbalance" 2 ∉ signal_open_interest oi n := by
  unfold signal_open_interest
  repeat' first | split | dsimp only
  all_goals simp

/-- Rule 9 never emits the order-book signal. -/
lemma ob_notin_signal_ticker (t : Option Ticker24h) :
    Signal.mk "order_book_imbalance" 2 ∉ signal_ticker t := by
  unfold signal_ticker
  repeat' first | split | dsimp only
  all_goals simp

/-- Rule 8 membership characterization: the order-book signal is produced
exactly for a two-sided book with positive top-10 notional total and absolute
imbalance above `0.3`. -/
lemma mem_signal_order_book (ob : OrderBook) :
    Signal.mk "order_book_imbalance" 2 ∈ signal_order_book (some ob) ↔
      (ob.bids ≠ [] ∧ ob.asks ≠ [] ∧ bid_notional ob + ask_notional ob > 0 ∧
       |(bid_notional ob - ask_notional ob) / (bid_notional ob + ask_notional ob)| >
         3 / 10) := by
  unfold signal_order_book bid_notional ask_notional
  dsimp only
  simp only [List.map_take]
  split_ifs with h1 h2 h3
  · simp [h1.1, h1.2, h2, h3]
  · simp only [List.not_mem_nil, false_iff]
    intro hcon
    exact h3 hcon.2.2.2
  · simp only [List.not_mem_nil, false_iff]
    intro hcon
    exact h2 hcon.2.2.1
  · simp only [List.not_mem_nil, false_iff]
    intro hcon
    exact h1 ⟨hcon.1, hcon.2.1⟩

/-- C7 counterexample: a detector run that reaches signal evaluation
(`status = "ok"`) with a one-sided order book (no bids, one ask).  The
claim's imbalance formula evaluates to `-1`, whose absolute value exceeds
`0.3`, yet no `order_book_imbalance` signal is emitted because the code
additionally requires both sides to be nonempty. -/
theorem claim_C7_order_book_counterexample :
    |(bid_notional ob_one_sided - ask_notional ob_one_sided) /
        (bid_notional ob_one_sided + ask_notional ob_one_sided)| > 3 / 10 ∧
    (detect_volatility_expansion_signals det_demo none none none
        (some ob_one_sided)).status = "ok" ∧
    (detect_volatility_expansion_signals det_demo none none none
        (some ob_one_sided)).signals = [] := by
  rw [detect_det_demo_eval]
  refine ⟨?_, rfl, ?_⟩
  · have h : (bid_notional ob_one_sided - ask_notional ob_one_sided) /
        (bid_notional ob_one_sided + ask_notional ob_one_sided) = -1 := by
      norm_num [bid_notional, ask_notional, ob_one_sided]
    rw [h, abs_neg, abs_one]
    norm_num
  · simp [signal_funding, signal_open_interest, signal_order_book, signal_ticker,
      ob_one_sided]

/-- C7 (amended): in any detector run that reaches signal evaluation
(`status = "ok"`), the `order_book_imbalance` signal (strength 2) is emitted
exactly when the supplied order book has nonempty bids and asks, positive
top-10 notional total, and `|(bid-ask)/(bid+ask)| > 0.3` over the top 10
levels. -/
theorem claim_C7_order_book_imbalance (klines : List EnrichedCandle)
    (t : Option Ticker24h) (f : Option FundingRate) (oi : Option OpenInterestSnap)
    (ob : OrderBook)
    (hok : (detect_volatility_expansion_signals klines t f oi (some ob)).status = "ok") :
    Signal.mk "order_book_imbalance" 2 ∈
        (detect_volatility_expansion_signals klines t f oi (some ob)).signals ↔
      (ob.bids ≠ [] ∧ ob.asks ≠ [] ∧ bid_notional ob + ask_notional ob > 0 ∧
       |(bid_notional ob - ask_notional ob) / (bid_notional ob + ask_notional ob)| >
         3 / 10) := by
  unfold detect_volatility_expansion_signals at hok ⊢
  by_cases hlen : klines.length < 20
  · rw [if_pos hlen] at hok
    simp at hok
  · rw [if_neg hlen] at hok ⊢
    dsimp only at hok ⊢
    cases hreg : calculate_volatility_regime klines 20 with
    | insufficient_data =>
      rw [hreg] at hok
      simp [VolRegime.status] at hok
    | no_volatility_data =>
      rw [hreg] at hok
      simp [VolRegime.status] at hok
    | ok cur avg mx mn pct regime trend key =>
      dsimp only
      simp only [List.mem_append]
      simp [ob_notin_signal_trend_reversal regime trend,
        ob_notin_signal_compression_breakout pct klines,
        ob_notin_signal_volume_expansion klines,
        ob_notin_signal_rsi klines,
        ob_notin_signal_ma20_cross klines,
        ob_notin_signal_funding f,
        ob_notin_signal_open_interest oi klines.length,
        ob_notin_signal_ticker t,
        mem_signal_order_book ob]

/-- Witness for C7 on the claim's own scenario: bids `[[100,5],[99,3]]`,
asks `[[101,1]]` give notionals 797 and 101 and trigger the signal. -/
theorem claim_C7_order_book_imbalance_witness :
    (detect_volatility_expansion_signals det_demo none none none
        (some ob_demo)).status = "ok" ∧
    bid_notional ob_demo = 797 ∧ ask_notional ob_demo = 101 ∧
    Signal.mk "order_book_imbalance" 2 ∈
      (detect_volatility_expansion_signals det_demo none none none
        (some ob_demo)).signals := by
  have hok : (detect_volatility_expansion_signals det_demo none none none
      (some ob_demo)).status = "ok" := by
    rw [detect_det_demo_eval]
  refine ⟨hok, by norm_num [bid_notional, ob_demo], by norm_num [ask_notional, ob_demo], ?_⟩
  apply (claim_C7_order_book_imbalance det_demo none none none ob_demo hok).mpr
  refine ⟨by simp [ob_demo], by simp [ob_demo], by norm_num [bid_notional, ask_notional, ob_demo], ?_⟩
  have h : (bid_notional ob_demo - ask_notional ob_demo) /
      (bid_notional ob_demo + ask_notional ob_demo) = 348 / 449 := by
    norm_num [bid_notional, ask_notional, ob_demo]
  rw [h, abs_of_pos (by norm_num)]
  norm_num

/-- C8: summarizing a payload whose kline list is a single candle run through
the indicator engine, with no auxiliary snapshots, yields a summary whose six
indicator fields are all absent and whose `current_price` is that candle's
close. -/
theorem claim_C8_single_candle_summary (sqrtf : ℚ → ℚ) (c : Candle) :
    (summarize ⟨calculate_indicators sqrtf [c], none, none, none, none, none, none⟩).map
      (fun s => (s.ma20, s.ma50, s.rsi14, s.atr14, s.atr14_pct, s.volatility_20_pct,
        s.current_price)) =
      some (none, none, none, none, none, none, c.close) := by
  have hcalc : calculate_indicators sqrtf [c] =
      [⟨c, none, none, none, none, none, none, none, none, none⟩] := by
    simp [calculate_indicators, enrich_at, List.range_succ, List.range_zero, List.getD]
  rw [hcalc]
  simp [summarize, latest_kline, analyze_signals, lt_irrefl]

/-- C10: for a summary whose `rsi14` is present and in `[0, 100]`, the derived
signals mapping of `analyze_signals` lacks both `rsi_status` and `rsi_level`
exactly when `rsi14 = 30`: the bucket bands `<20, <30, >80, >70, >50, >30`
leave precisely the value 30 unlabeled. -/
theorem claim_C10_rsi_bucket_gap (s : Summary) (klines : List EnrichedCandle) (r : ℚ)
    (hr : s.rsi14 = some r) (h0 : 0 ≤ r) (h100 : r ≤ 100) :
    ((((analyze_signals s klines).signals.getD default).rsi_status = none ∧
      (((analyze_signals s klines).signals.getD default).rsi_level = none)) ↔ r = 30) := by
  unfold analyze_signals rsi_bucket
  rw [hr]
  dsimp only
  split_ifs with h1 h2 h3 h4 h5 h6 <;> simp <;>
    first
    | linarith
    | (intro h; linarith)

/-- Witness for C10: `rsi14 = 30` gets no bucket label, `rsi14 = 55` does. -/
theorem claim_C10_rsi_bucket_gap_witness :
    (((analyze_signals (sum_demo (some 30)) []).signals.getD default).rsi_status = none ∧
      (((analyze_signals (sum_demo (some 30)) []).signals.getD default).rsi_level = none)) ∧
    ¬((((analyze_signals (sum_demo (some 55)) []).signals.getD default).rsi_status = none ∧
      (((analyze_signals (sum_demo (some 55)) []).signals.getD default).rsi_level = none))) := by
  constructor
  · exact (claim_C10_rsi_bucket_gap (sum_demo (some 30)) [] 30 rfl (by norm_num)
      (by norm_num)).mpr rfl
  · intro hcon
    have h55 := (claim_C10_rsi_bucket_gap (sum_demo (some 55)) [] 55 rfl (by norm_num)
      (by norm_num)).mp hcon
    norm_num at h55

/-- Python `l[-n:]` on a list ending in `a` keeps `a` and takes the rest from
the prefix. -/
lemma py_take_last_concat {α : Type} (n : ℕ) (l : List α) (a : α) :
    py_take_last n (l ++ [a]) =
      (if n = 0 then l else l.drop (l.length + 1 - n)) ++ [a] := by
  by_cases hn : n = 0
  · simp [py_take_last, hn]
  · unfold py_take_last
    rw [if_neg hn, if_neg hn, List.length_append, List.drop_append_eq_append_drop]
    simp only [List.length_singleton]
    congr 1
    have h0 : l.length + 1 - n - l.length = 0 := by omega
    rw [h0]
    rfl

/-- The proxy projection ignores the `rsi14` field. -/
lemma proxy_value_rsi_update (k : String) (c : EnrichedCandle) (x : Option ℚ) :
    proxy_value k { c with rsi14 := x } = proxy_value k c := by
  unfold proxy_value
  split <;> rfl

/-- The regime classifier ignores the last candle's `rsi14`. -/
lemma regime_rsi_inv (l : List EnrichedCandle) (c : EnrichedCandle)
    (x y : Option ℚ) (n : ℕ) :
    calculate_volatility_regime (l ++ [{ c with rsi14 := x }]) n =
      calculate_volatility_regime (l ++ [{ c with rsi14 := y }]) n := by
  unfold calculate_volatility_regime
  have hsingle : ∀ (k : String) (e : EnrichedCandle),
      List.filterMap (proxy_value k) [e] = (proxy_value k e).toList := by
    intro k e
    cases h : proxy_value k e <;> simp [h]
  simp only [List.length_append, List.length_singleton, List.getLast?_concat,
    py_take_last_concat, List.filterMap_append, hsingle, proxy_value_rsi_update]

/-- Rule 2 ignores the last candle's `rsi14`. -/
lemma scb_rsi_inv (pct : ℚ) (l : List EnrichedCandle) (c : EnrichedCandle)
    (x y : Option ℚ) :
    signal_compression_breakout pct (l ++ [{ c with rsi14 := x }]) =
      signal_compression_breakout pct (l ++ [{ c with rsi14 := y }]) := by
  unfold signal_compression_breakout
  simp only [List.getLast?_concat, List.dropLast_concat]
  cases l.getLast? <;> rfl

/-- Rule 3 ignores the last candle's `rsi14`. -/
lemma sve_rsi_inv (l : List EnrichedCandle) (c : EnrichedCandle) (x y : Option ℚ) :
    signal_volume_expansion (l ++ [{ c with rsi14 := x }]) =
      signal_volume_expansion (l ++ [{ c with rsi14 := y }]) := by
  unfold signal_volume_expansion
  simp only [List.length_append, List.length_singleton, List.getLast?_concat,
    py_take_last_concat, List.map_append, List.map_cons, List.map_nil]
  rfl

/-- Rule 4 on a list ending in a candle with a present `rsi14`. -/
lemma srsi_concat (l : List EnrichedCandle) (c : EnrichedCandle) (r : ℚ) :
    signal_rsi (l ++ [{ c with rsi14 := some r }]) =
      (if r < 30 then [⟨"rsi_oversold", 1⟩]
       else if r > 70 then [⟨"rsi_overbought", 1⟩]
       else []) := by
  unfold signal_rsi
  simp only [List.getLast?_concat]

/-- Rule 5 ignores the last candle's `rsi14`. -/
lemma sma_rsi_inv (l : List EnrichedCandle) (c : EnrichedCandle) (x y : Option ℚ) :
    signal_ma20_cross (l ++ [{ c with rsi14 := x }]) =
      signal_ma20_cross (l ++ [{ c with rsi14 := y }]) := by
  unfold signal_ma20_cross
  simp only [List.length_append, List.length_singleton, List.getLast?_concat,
    List.dropLast_concat]
  cases l.getLast? <;> rcases c.ma20 with _ | m <;> rfl

/-- C9: signal strength is monotone in the RSI rule's trigger, the claim's
exemplar of adding a qualifying condition: moving the latest candle's `rsi14`
from a non-triggering value in `[30, 70]` to a triggering value below 30,
with every other part of the input held fixed, never decreases
`signal_strength`. -/
theorem claim_C9_strength_monotone_rsi (l : List EnrichedCandle) (c : EnrichedCandle)
    (a b : ℚ) (t : Option Ticker24h) (f : Option FundingRate)
    (oi : Option OpenInterestSnap) (ob : Option OrderBook)
    (ha30 : 30 ≤ a) (ha70 : a ≤ 70) (hb : b < 30) :
    (detect_volatility_expansion_signals (l ++ [{ c with rsi14 := some a }])
        t f oi ob).signal_strength ≤
    (detect_volatility_expansion_signals (l ++ [{ c with rsi14 := some b }])
        t f oi ob).signal_strength := by
  unfold detect_volatility_expansion_signals
  have hlen : (l ++ [{ c with rsi14 := some a }]).length =
      (l ++ [{ c with rsi14 := some b }]).length := by simp
  by_cases hl : (l ++ [{ c with rsi14 := some a }]).length < 20
  · rw [if_pos hl, if_pos (hlen ▸ hl)]
  · rw [if_neg hl, if_neg (hlen ▸ hl)]
    dsimp only
    rw [regime_rsi_inv l c (some a) (some b) 20]
    cases hr : calculate_volatility_regime (l ++ [{ c with rsi14 := some b }]) 20 with
    | insufficient_data => simp
    | no_volatility_data => simp
    | ok cur avg mx mn pct regime trend key =>
      dsimp only
      rw [scb_rsi_inv pct l c (some a) (some b), sve_rsi_inv l c (some a) (some b),
        sma_rsi_inv l c (some a) (some b), srsi_concat l c a, srsi_concat l c b,
        if_neg (not_lt.mpr ha30), if_neg (by simp [not_lt]; linarith), if_pos hb]
      simp only [List.length_append, List.length_singleton, List.map_append,
        List.sum_append, List.map_cons, List.map_nil, List.sum_cons, List.sum_nil]
      omega

/-- Witness for C9: moving the last candle's RSI from 50 to 25 on a concrete
20-candle input. -/
theorem claim_C9_strength_monotone_rsi_witness :
    (detect_volatility_expansion_signals
        (c9_front ++ [{ c9_last with rsi14 := some 50 }]) none none none none).signal_strength ≤
    (detect_volatility_expansion_signals
        (c9_front ++ [{ c9_last with rsi14 := some 25 }]) none none none none).signal_strength :=
  claim_C9_strength_monotone_rsi c9_front c9_last 50 25 none none none none
    (by norm_num) (by norm_num) (by norm_num)
